import Mathlib

/-!
# Verification of the Fenics `DataModule` (fenics/data/module.py)

A shallow embedding of the data-loading core of the Fenics decentralized
federated-learning framework, together with theorems settling the frozen
claims about its specification.

Modelling conventions:

* Python objects are immutable Lean structures; mutation of `self` is explicit
  state passing (`DataModule` in, `DataModule` out).
* Process-global mutable state (the stdlib `random` generator seeded by
  `random.seed`, numpy's generator seeded by `np.random.seed`, torch's seed,
  and the Python heap) is a `World` value threaded through the operations.
  A fresh heap object (a `torch.utils.data.DataLoader`) receives the current
  allocation counter as its identity, so Python object identity (`is`) is
  modelled as equality of `objId`.
* The pseudo-random generators are modelled as streams `Nat → Nat` with a
  position counter: each `_randbelow(k)` call reads the stream at the current
  position modulo `k` and advances the position.  Seeding installs the stream
  determined by the seed via a seeding function carried in the `World`
  (a stand-in for the Mersenne Twister, which is Python-stdlib code external
  to this repository).  All theorems below use only that the draws are a
  deterministic function of the seeded state.
* Fallible Python code returns `Except DMError` (or a `SetupResult` carrying
  an `Option DMError` together with the partially updated state, since a
  Python exception inside `setup` leaves the already-performed field
  assignments in place).
* Datasets are opaque: a training dataset shard is its list of example
  indices, the global test dataset is represented by its length, and
  `torch.utils.data.Subset(ds, idxs)` by `idxs`.
-/

/-- Error values modelling the Python exceptions the embedded code can raise:
`uninitialized` stands for the `TypeError`/`AttributeError` raised when a
still-`None` attribute is subscripted or iterated, `unknownNode` for
`KeyError(node_id)` (which carries the offending key), `zeroDivision` for
`ZeroDivisionError`, and `collaborator` for an exception escaping an external
collaborator call. -/
inductive DMError where
  | uninitialized : DMError
  | unknownNode (node_id : Int) : DMError
  | zeroDivision : DMError
  | collaborator (msg : String) : DMError
  deriving DecidableEq, Repr

/-- State of one pseudo-random generator: a stream of raw draws and the
current read position. `_randbelow(k)` reads `stream pos % k` and advances. -/
structure RngState where
  stream : Nat → Nat
  pos : Nat

/-- Process-global state: the two seedable generators (`random`, `np.random`),
the seeding functions that map a seed to a stream (stdlib internals, external
to the repository), the torch seed, and a heap allocation counter used to give
fresh Python objects their identity. -/
structure World where
  seedFnPy : Int → Nat → Nat
  seedFnNp : Int → Nat → Nat
  rng : RngState
  npRng : RngState
  torchSeed : Int
  alloc : Nat

/-- A `torch.utils.data.DataLoader` object: its heap identity, the index list
of the underlying `Subset` (or node dataset), and the constructor arguments
used in `module.py`. -/
structure DataLoader where
  objId : Nat
  indices : List Nat
  batch_size : Int
  shuffle : Bool
  deriving DecidableEq, Repr

/-- One draw of Python's `random._randbelow`: read the stream, reduce modulo
`k`, advance the position. -/
def pyRandbelow (r : RngState) (k : Nat) : Nat × RngState :=
  (r.stream r.pos % k, { r with pos := r.pos + 1 })

/-- Fuel-indexed body of the shuffle model (fuel = length of the list, so the
recursion is structural and kernel-reducible). -/
def pyShuffleGo : Nat → List Nat → RngState → List Nat × RngState
  | 0, _, r => ([], r)
  | _ + 1, [], r => ([], r)
  | fuel + 1, x :: xs, r =>
    let l := x :: xs
    let (j, r') := pyRandbelow r l.length
    let rest := pyShuffleGo fuel (l.eraseIdx j) r'
    (l.getD j 0 :: rest.1, rest.2)

/-- Model of `random.shuffle` (Python stdlib, external to this repository; the
spec only requires "shuffle the full index range using the seeded source").
It is a deterministic extraction shuffle driven by the seeded stream: at each
step an index below the remaining length is drawn and that element is moved to
the front of the remaining output.  Every theorem below uses only that the
result is a permutation of the input determined by the generator state. -/
def pyShuffle (l : List Nat) (r : RngState) : List Nat × RngState :=
  pyShuffleGo l.length l r

/-- The slice of the shuffled test indices handed to node `i` by
`_create_test_loaders`: `start = i * split_size`,
`end = (i+1) * split_size` for all but the last node, which runs to `N`. -/
def testSlice (l : List Nat) (N n i : Nat) : List Nat :=
  let s := N / n
  let start := i * s
  let stop := if i < n - 1 then (i + 1) * s else N
  (l.drop start).take (stop - start)

/- ### Permutation and slicing lemmas -/

theorem perm_getD_cons_eraseIdx (l : List Nat) (j : Nat) (h : j < l.length) :
    List.Perm l (l.getD j 0 :: l.eraseIdx j) := by
  induction l generalizing j with
  | nil => simp at h
  | cons a t ih =>
    cases j with
    | zero => simp
    | succ j =>
      simp only [List.length_cons, Nat.succ_lt_succ_iff] at h
      have ht := ih j h
      have h1 : List.Perm (a :: t) (a :: t.getD j 0 :: t.eraseIdx j) :=
        List.Perm.cons a ht
      have h2 : List.Perm (a :: t.getD j 0 :: t.eraseIdx j)
          (t.getD j 0 :: a :: t.eraseIdx j) := List.Perm.swap _ _ _
      have h3 := h1.trans h2
      simpa [List.getD] using h3

theorem pyShuffleGo_perm (fuel : Nat) :
    ∀ (l : List Nat) (r : RngState), l.length = fuel →
      List.Perm (pyShuffleGo fuel l r).1 l := by
  induction fuel with
  | zero =>
    intro l r h
    have hnil : l = [] := List.eq_nil_of_length_eq_zero h
    subst hnil
    simp [pyShuffleGo]
  | succ fuel ih =>
    intro l r h
    cases l with
    | nil => simp at h
    | cons x xs =>
      have hpos : 0 < (x :: xs).length := by simp
      have hjlt : (pyRandbelow r (x :: xs).length).1 < (x :: xs).length :=
        Nat.mod_lt _ hpos
      have herase :
          ((x :: xs).eraseIdx (pyRandbelow r (x :: xs).length).1).length = fuel := by
        rw [List.length_eraseIdx_of_lt hjlt]
        simp only [List.length_cons] at h ⊢
        omega
      have hrest := ih _ (pyRandbelow r (x :: xs).length).2 herase
      have hperm := perm_getD_cons_eraseIdx (x :: xs) _ hjlt
      have hunfold : (pyShuffleGo (fuel + 1) (x :: xs) r).1
          = (x :: xs).getD (pyRandbelow r (x :: xs).length).1 0 ::
            (pyShuffleGo fuel ((x :: xs).eraseIdx (pyRandbelow r (x :: xs).length).1)
              (pyRandbelow r (x :: xs).length).2).1 := rfl
      rw [hunfold]
      exact (List.Perm.cons _ hrest).trans hperm.symm

theorem pyShuffle_perm (l : List Nat) (r : RngState) :
    List.Perm (pyShuffle l r).1 l :=
  pyShuffleGo_perm l.length l r rfl

theorem pyShuffle_length (l : List Nat) (r : RngState) :
    (pyShuffle l r).1.length = l.length :=
  (pyShuffle_perm l r).length_eq

/-- Joining the first `m` equal-width slices recovers the first `m * s`
elements. -/
theorem flatten_take_slices (l : List Nat) (s : Nat) :
    ∀ m : Nat, ((List.range m).map (fun i => (l.drop (i * s)).take s)).flatten
      = l.take (m * s) := by
  intro m
  induction m with
  | zero => simp
  | succ m ih =>
    rw [List.range_succ, List.map_append, List.flatten_append, ih]
    have hadd : l.take (m * s + s) = l.take (m * s) ++ (l.drop (m * s)).take s :=
      List.take_add l (m * s) s
    simp [Nat.succ_mul, hadd]

/-- For `n ≥ 1` the `n` slices produced by `_create_test_loaders` concatenate
back to the whole (length-`N`) list: nothing dropped, nothing duplicated. -/
theorem flatten_testSlice (l : List Nat) (N n : Nat) (hl : l.length = N) (hn : 1 ≤ n) :
    ((List.range n).map (testSlice l N n)).flatten = l := by
  obtain ⟨m, rfl⟩ : ∃ m, n = m + 1 := ⟨n - 1, by omega⟩
  rw [List.range_succ, List.map_append, List.flatten_append]
  have hfront : ((List.range m).map (testSlice l N (m + 1))).flatten
      = l.take (m * (N / (m + 1))) := by
    rw [List.map_congr_left (g := fun i => (l.drop (i * (N / (m + 1)))).take (N / (m + 1)))]
    · exact flatten_take_slices l (N / (m + 1)) m
    · intro i hi
      have hi' : i < m := List.mem_range.mp hi
      have hlt : i < m + 1 - 1 := by omega
      have hstop : (i + 1) * (N / (m + 1)) - i * (N / (m + 1)) = N / (m + 1) := by
        generalize N / (m + 1) = s
        rw [Nat.succ_mul]
        omega
      simp only [testSlice, if_pos hlt, hstop]
  have hlast : testSlice l N (m + 1) m = l.drop (m * (N / (m + 1))) := by
    have hnot : ¬ m < m + 1 - 1 := by omega
    have hdroplen : (l.drop (m * (N / (m + 1)))).length = N - m * (N / (m + 1)) := by
      rw [List.length_drop, hl]
    simp only [testSlice, hnot, if_false]
    rw [← hdroplen]
    exact List.take_length _
  rw [hfront]
  simp only [List.map_cons, List.map_nil, List.flatten_cons, List.flatten_nil, hlast,
    List.append_nil]
  exact List.take_append_drop _ l

/-- Length of the slice handed to node `i` (for a length-`N` list and
`1 ≤ n`, `i < n`): the base width `N / n` for every node but the last, and
`N / n + N % n` for the last node, which absorbs the remainder. -/
theorem length_testSlice_aux (l : List Nat) (N n i s r : Nat) (hl : l.length = N)
    (hn : 1 ≤ n) (hi : i < n) (hdm : n * s + r = N) (hsr : N / n = s) :
    (testSlice l N n i).length = if i + 1 < n then s else s + r := by
  have hsucc : (i + 1) * s = i * s + s := Nat.succ_mul i s
  have hle : (i + 1) * s ≤ n * s := Nat.mul_le_mul_right _ hi
  by_cases hcase : i + 1 < n
  · have hlt : i < n - 1 := by omega
    simp only [testSlice, hsr, if_pos hlt, if_pos hcase, List.length_take,
      List.length_drop, hl]
    have h1 : (i + 1) * s - i * s = s := by omega
    rw [h1]
    exact min_eq_left (by omega)
  · have hi1 : i + 1 = n := by omega
    have hnot : ¬ i < n - 1 := by omega
    have hlast : (i + 1) * s = n * s := by rw [hi1]
    simp only [testSlice, hsr, if_neg hnot, if_neg hcase, List.length_take,
      List.length_drop, hl, Nat.min_self]
    omega

theorem length_testSlice (l : List Nat) (N n i : Nat) (hl : l.length = N)
    (hn : 1 ≤ n) (hi : i < n) :
    (testSlice l N n i).length = if i + 1 < n then N / n else N / n + N % n :=
  length_testSlice_aux l N n i (N / n) (N % n) hl hn hi (Nat.div_add_mod N n) rfl

/- ### The embedded program: fenics/data/module.py and fenics/topology/base.py -/

/-- Constructor arguments of `DataModule.__init__` (the `logger` argument is
pure logging plumbing and carries no data relevant to any claim). -/
structure Config where
  num_nodes : Int
  alpha : Rat
  topology : String
  topology_file : Option String
  output_dir : String
  batch_size : Int
  random_seed : Int
  deriving DecidableEq, Repr

/-- The `DataModule` object.  Fields initialized to `None` in `__init__` are
`Option`s; `setup` fills them in.  A training dataset shard is its list of
example indices; the opaque global test dataset is represented by its length
(the only operation `module.py` performs on it is `len` and `Subset`
formation); the topology graph is opaque (`Unit`), built by an external
collaborator. -/
structure DataModule where
  num_nodes : Int
  alpha : Rat
  topology : String
  topology_file : Option String
  output_dir : String
  batch_size : Int
  random_seed : Int
  train_datasets : Option (List (List Nat))
  test_dataset : Option Nat
  labels : Option (List Nat)
  nodes : Option (List Int)
  G : Option Unit
  node_datasets : Option (List (Int × List Nat))
  test_loaders_per_node : Option (List (Int × DataLoader))

/-- Result of a statement block that can raise: the optional exception
together with the (possibly partially updated) object and global state,
mirroring that a Python exception leaves already-executed assignments to
`self` in place. -/
structure SetupResult where
  err : Option DMError
  dm : DataModule
  world : World

/-- Inputs to `setup` supplied by external collaborators: the opaque dataset
source (training labels and global test set size, delivered by
`load_datasets_dirichlet`'s internal FashionMNIST load), and the outcomes of
the four fire-and-forget collaborator calls made by `setup`
(`print_class_distribution`, `visualize_data_distribution`, `build_topology`,
`visualize_and_save_topology`), each an `Except` value recording whether that
external call raised. -/
structure SetupEnv where
  labels : List Nat
  testLen : Nat
  printDist : Except DMError Unit
  vizDist : Except DMError Unit
  buildTopo : Except DMError Unit
  vizTopo : Except DMError Unit

/-- `create_nodes` from fenics/topology/base.py: the list of node indices
`0 .. num_nodes-1` (empty for a non-positive count, as `range` is). -/
def create_nodes (num_nodes : Int) : List Int :=
  (List.range num_nodes.toNat).map Int.ofNat

/-- Draw `k` positive weights from the numpy stream (one draw per node). -/
def drawWeights : Nat → RngState → List Nat × RngState
  | 0, r => ([], r)
  | k + 1, r =>
    let v := r.stream r.pos
    let rest := drawWeights k { r with pos := r.pos + 1 }
    ((v % 97 + 1) :: rest.1, rest.2)

/-- Distribute `items` over `ws.length` parts proportionally to the weights
`ws`, by cumulative-threshold rounding: part `i` receives the items between
boundaries `⌊m·W_i/W⌋` and `⌊m·W_{i+1}/W⌋`, where `W_i` is the prefix sum of
the weights, so the part sizes sum exactly to `items.length`. -/
def apportion (items : List Nat) (ws : List Nat) : List (List Nat) :=
  let total := ws.sum
  let m := items.length
  (List.range ws.length).map (fun i =>
    let lo := m * (ws.take i).sum / total
    let hi := m * (ws.take (i + 1)).sum / total
    (items.drop lo).take (hi - lo))

/-- Modelled from the spec: `load_datasets_dirichlet` lives in
fenics/data/handler.py, which is not under src/.  Per the spec (§4.1), for
each class present in the label vector a probability vector over the
`num_nodes` nodes is drawn from the seeded random source (a Dirichlet draw
with concentration `alpha`; the concentration only shapes the distribution of
the drawn weights, which this model abstracts into positive weights read from
the seeded numpy stream), and that class's example indices are distributed
across nodes proportionally with a deterministic cumulative-threshold
rounding.  The function returns the per-node training shards, the opaque test
dataset, and the label vector, and is a deterministic function of the node
count, the concentration, the dataset source and the numpy generator state. -/
def load_datasets_dirichlet (num_nodes : Int) (_alpha : Rat) (env : SetupEnv)
    (np : RngState) : (List (List Nat) × Nat × List Nat) × RngState :=
  let n := num_nodes.toNat
  let classes := env.labels.dedup
  let step := fun (acc : List (List Nat) × RngState) (c : Nat) =>
    let idxs := (List.range env.labels.length).filter
      (fun i => env.labels.getD i 0 = c)
    let ws := drawWeights n acc.2
    let ps := apportion idxs ws.1
    (acc.1.zipWith (· ++ ·) ps, ws.2)
  let res := classes.foldl step (List.replicate n [], np)
  ((res.1, env.testLen, env.labels), res.2)

/-- Modelled from the spec: `calculate_selection_probabilities` lives in
fenics/utils.py, which is not under src/.  Per the spec (§4.3) it returns a
sequence of per-node weights proportional to each node's training-set size;
it reads the sizes from the node-to-dataset map, so receiving a still-`None`
map (accessor called before `setup`) raises. -/
def utils_calculate_selection_probabilities
    (node_datasets : Option (List (Int × List Nat))) : Except DMError (List Rat) :=
  match node_datasets with
  | none => .error .uninitialized
  | some m =>
    let sizes := m.map (fun p => (p.2.length : Rat))
    let total := sizes.sum
    .ok (sizes.map (fun sz => sz / total))

/-- `DataModule.__init__`: stores the configuration unchanged, seeds the three
global generators from `random_seed` (resetting the `random` and `np.random`
streams to position 0 of the seed-determined stream), and initializes every
derived attribute to `None`.  The body performs no validation and contains no
`raise`; stdlib range checks on exotic seed values are outside the embedded
code and are not modelled. -/
def DataModule_init (cfg : Config) (w : World) : DataModule × World :=
  ({ num_nodes := cfg.num_nodes
     alpha := cfg.alpha
     topology := cfg.topology
     topology_file := cfg.topology_file
     output_dir := cfg.output_dir
     batch_size := cfg.batch_size
     random_seed := cfg.random_seed
     train_datasets := none
     test_dataset := none
     labels := none
     nodes := none
     G := none
     node_datasets := none
     test_loaders_per_node := none },
   { w with
     torchSeed := cfg.random_seed
     rng := { stream := w.seedFnPy cfg.random_seed, pos := 0 }
     npRng := { stream := w.seedFnNp cfg.random_seed, pos := 0 } })

/-- The constructor viewed as fallible code (the Python constructor can in
principle raise): its body is straight-line assignment and seeding, so it
always returns normally. -/
def DataModule_init_run (cfg : Config) (w : World) :
    Except DMError (DataModule × World) :=
  .ok (DataModule_init cfg w)

/-- `DataModule._create_test_loaders`: shuffles `list(range(len(test_dataset)))`
with the global `random` generator, computes `split_size = N // num_nodes`
(raising `ZeroDivisionError` when `num_nodes == 0`; for negative `num_nodes`
the loop `range(num_nodes)` is empty, matching `Int.toNat`), and hands node
`i` (keyed by `self.nodes[i]`) a non-shuffling `DataLoader` over the slice
`[i*split_size, (i+1)*split_size)` — the last node's slice running to `N`.
Each constructed `DataLoader` is a fresh heap object. -/
def DataModule.create_test_loaders (dm : DataModule) (w : World) : SetupResult :=
  match dm.test_dataset with
  | none => ⟨some .uninitialized, dm, w⟩
  | some N =>
    let sh := pyShuffle (List.range N) w.rng
    let w1 : World := { w with rng := sh.2 }
    if dm.num_nodes = 0 then ⟨some .zeroDivision, dm, w1⟩
    else
      let n := dm.num_nodes.toNat
      match dm.nodes with
      | none =>
        if n = 0 then ⟨none, { dm with test_loaders_per_node := some [] }, w1⟩
        else ⟨some .uninitialized, { dm with test_loaders_per_node := some [] }, w1⟩
      | some ns =>
        let entries := (List.range n).map (fun i =>
          (ns.getD i 0,
           { objId := w1.alloc + i
             indices := testSlice sh.1 N n i
             batch_size := dm.batch_size
             shuffle := false : DataLoader }))
        ⟨none, { dm with test_loaders_per_node := some entries },
         { w1 with alloc := w1.alloc + n }⟩

/-- `DataModule.setup`: loads the datasets (fatal on failure, not modelled as
failing since the dataset source is opaque), calls the logging and
visualization collaborators and the topology builder in source order with no
exception handling (so any collaborator exception propagates immediately,
leaving the fields assigned so far), derives the node registry and the
node-to-dataset map, and builds the per-node test loaders. -/
def DataModule.setup (dm : DataModule) (w : World) (env : SetupEnv) : SetupResult :=
  let load := load_datasets_dirichlet dm.num_nodes dm.alpha env w.npRng
  let dm1 : DataModule := { dm with
    train_datasets := some load.1.1
    test_dataset := some load.1.2.1
    labels := some load.1.2.2 }
  let w1 : World := { w with npRng := load.2 }
  match env.printDist with
  | .error e => ⟨some e, dm1, w1⟩
  | .ok _ =>
  match env.vizDist with
  | .error e => ⟨some e, dm1, w1⟩
  | .ok _ =>
  let dm2 : DataModule := { dm1 with nodes := some (create_nodes dm1.num_nodes) }
  match env.buildTopo with
  | .error e => ⟨some e, dm2, w1⟩
  | .ok _ =>
  let dm3 : DataModule := { dm2 with G := some () }
  match env.vizTopo with
  | .error e => ⟨some e, dm3, w1⟩
  | .ok _ =>
  let dm4 : DataModule := { dm3 with
    node_datasets := some ((create_nodes dm1.num_nodes).map
      (fun node => (node, load.1.1.getD node.toNat []))) }
  DataModule.create_test_loaders dm4 w1

/-- `DataModule.get_train_loader`: `self.node_datasets[node_id]` raises
`TypeError` while the map is still `None` and `KeyError(node_id)` for an
unknown key; otherwise it constructs a fresh shuffling `DataLoader` over the
node's dataset (fresh heap object on every call; the shuffling itself happens
at iteration time, not at construction, so no generator state is consumed
here).  On an error path the function returns before any state is touched. -/
def DataModule.get_train_loader (dm : DataModule) (w : World) (node_id : Int) :
    Except DMError (DataLoader × DataModule × World) :=
  match dm.node_datasets with
  | none => .error .uninitialized
  | some m =>
    match List.lookup node_id m with
    | none => .error (.unknownNode node_id)
    | some ds =>
      .ok ({ objId := w.alloc, indices := ds,
             batch_size := dm.batch_size, shuffle := true },
           dm, { w with alloc := w.alloc + 1 })

/-- `DataModule.get_test_loader`: returns the loader cached in
`self.test_loaders_per_node` (built once by `_create_test_loaders`); raises
`TypeError` before `setup` and `KeyError(node_id)` for an unknown key.  It
constructs nothing and modifies nothing. -/
def DataModule.get_test_loader (dm : DataModule) (w : World) (node_id : Int) :
    Except DMError (DataLoader × DataModule × World) :=
  match dm.test_loaders_per_node with
  | none => .error .uninitialized
  | some m =>
    match List.lookup node_id m with
    | none => .error (.unknownNode node_id)
    | some ld => .ok (ld, dm, w)

/-- `DataModule.get_data_sizes`: sizes of the per-node training shards;
iterating a still-`None` map raises `AttributeError`. -/
def DataModule.get_data_sizes (dm : DataModule) (w : World) :
    Except DMError (List (Int × Nat) × DataModule × World) :=
  match dm.node_datasets with
  | none => .error .uninitialized
  | some m => .ok (m.map (fun p => (p.1, p.2.length)), dm, w)

/-- `DataModule.calculate_selection_probabilities`: delegates to the
spec-modelled utility on `self.node_datasets`. -/
def DataModule.calculate_selection_probabilities (dm : DataModule) (w : World) :
    Except DMError (List Rat × DataModule × World) :=
  match utils_calculate_selection_probabilities dm.node_datasets with
  | .error e => .error e
  | .ok ps => .ok (ps, dm, w)

/-- Construct a `DataModule` and run `setup`, as the outer training loop does:
one "run" of the data module under a given configuration. -/
def runSetup (cfg : Config) (w : World) (env : SetupEnv) : SetupResult :=
  let iw := DataModule_init cfg w
  DataModule.setup iw.1 iw.2 env

/-- The Test Split Map of a module state: the per-node test index sequences,
forgetting loader object identities (the spec's map is about the index
sequences). -/
def testIdxProj (dm : DataModule) : Option (List (Int × List Nat)) :=
  dm.test_loaders_per_node.map (fun m => m.map (fun p => (p.1, p.2.indices)))

/- ### Concrete instances used by witnesses and counterexamples -/

/-- A concrete seeding function (stand-in Mersenne Twister): seed `s` yields
the stream `k ↦ |s| + k`. -/
def idStream : Int → Nat → Nat := fun s k => s.natAbs + k

/-- A concrete initial process state. -/
def w0 : World :=
  { seedFnPy := idStream
    seedFnNp := idStream
    rng := { stream := fun k => k, pos := 0 }
    npRng := { stream := fun k => k, pos := 0 }
    torchSeed := 0
    alloc := 0 }

/-- A concrete valid configuration (3 nodes, the spec's test scenario seed). -/
def cfg3 : Config :=
  { num_nodes := 3, alpha := 1, topology := "fully", topology_file := none,
    output_dir := "results", batch_size := 32, random_seed := 42 }

/-- An invalid configuration: non-positive node count, non-positive alpha,
non-positive batch size. -/
def cfgBad : Config :=
  { num_nodes := 0, alpha := -1, topology := "fully", topology_file := none,
    output_dir := "results", batch_size := 0, random_seed := 0 }

/-- A module state as `setup` leaves it just before `_create_test_loaders`,
with a 100-example test set and 3 nodes (the spec's concrete scenario). -/
def dmReady100 : DataModule :=
  { num_nodes := 3, alpha := 1, topology := "fully", topology_file := none,
    output_dir := "results", batch_size := 32, random_seed := 42,
    train_datasets := none, test_dataset := some 100, labels := none,
    nodes := some [0, 1, 2], G := none, node_datasets := none,
    test_loaders_per_node := none }

/-- Same shape with a 5-example test set and 2 nodes. -/
def dmReady5 : DataModule :=
  { num_nodes := 2, alpha := 1, topology := "fully", topology_file := none,
    output_dir := "results", batch_size := 32, random_seed := 0,
    train_datasets := none, test_dataset := some 5, labels := none,
    nodes := some [0, 1], G := none, node_datasets := none,
    test_loaders_per_node := none }

/- ### C1: the test split partitions the global test index range exactly -/

/-- C1: after setup, the Test Split Map built by `_create_test_loaders`
partitions the global test index range `[0, N)` exactly: for every
`num_nodes ≥ 1` and every test set size `N`, the concatenation of the
per-node index sequences is a permutation of `[0, N)`, so every test index
`j < N` appears in the sequences exactly once in total — in exactly one
node's sequence, with no index dropped and none duplicated within or across
nodes. -/
theorem test_split_partitions_exactly (dm : DataModule) (w : World) (N : Nat)
    (ns : List Int) (hN : dm.test_dataset = some N) (hns : dm.nodes = some ns)
    (hn : 1 ≤ dm.num_nodes) :
    ∃ entries,
      (DataModule.create_test_loaders dm w).dm.test_loaders_per_node = some entries ∧
      List.Perm ((entries.map (fun p => p.2.indices)).flatten) (List.range N) ∧
      ∀ j, j < N → ((entries.map (fun p => p.2.indices)).flatten).count j = 1 := by
  have hne : ¬ dm.num_nodes = 0 := by omega
  have hn1 : 1 ≤ dm.num_nodes.toNat := by omega
  simp only [DataModule.create_test_loaders, hN, hns, if_neg hne]
  refine ⟨_, rfl, ?_⟩
  have hlen : (pyShuffle (List.range N) w.rng).1.length = N := by
    rw [pyShuffle_length, List.length_range]
  have hproj :
      (((List.range dm.num_nodes.toNat).map (fun i =>
        (ns.getD i 0,
         { objId := w.alloc + i
           indices := testSlice (pyShuffle (List.range N) w.rng).1 N dm.num_nodes.toNat i
           batch_size := dm.batch_size
           shuffle := false : DataLoader }))).map (fun p => p.2.indices))
      = (List.range dm.num_nodes.toNat).map
          (testSlice (pyShuffle (List.range N) w.rng).1 N dm.num_nodes.toNat) := by
    rw [List.map_map]
    exact List.map_congr_left (fun i _ => rfl)
  rw [hproj,
    flatten_testSlice (pyShuffle (List.range N) w.rng).1 N dm.num_nodes.toNat hlen hn1]
  have hperm := pyShuffle_perm (List.range N) w.rng
  refine ⟨hperm, fun j hj => ?_⟩
  rw [hperm.count_eq]
  exact List.count_eq_one_of_mem (List.nodup_range N) (List.mem_range.mpr hj)

/-- Witness for C1: a concrete 2-node module with a 5-element test set; index
3 lands in exactly one node's sequence. -/
theorem test_split_partitions_exactly_witness :
    ∃ entries,
      (DataModule.create_test_loaders dmReady5 w0).dm.test_loaders_per_node = some entries ∧
      ((entries.map (fun p => p.2.indices)).flatten).count 3 = 1 := by
  obtain ⟨entries, h1, _, h3⟩ :=
    test_split_partitions_exactly dmReady5 w0 5 [0, 1] rfl rfl (by decide)
  exact ⟨entries, h1, h3 3 (by decide)⟩

/- ### C2: per-node test split sizes -/

/-- C2: for every `num_nodes ≥ 1` and test set size `N`, the per-node test
split sizes are `N / num_nodes` for every node except the last, which
absorbs the remainder (`N / num_nodes + N % num_nodes`); consequently any
two sizes differ by at most `num_nodes - 1`, with the excess concentrated in
the final node. -/
theorem test_split_sizes (dm : DataModule) (w : World) (N : Nat)
    (ns : List Int) (hN : dm.test_dataset = some N) (hns : dm.nodes = some ns)
    (hn : 1 ≤ dm.num_nodes) :
    ∃ entries,
      (DataModule.create_test_loaders dm w).dm.test_loaders_per_node = some entries ∧
      entries.map (fun p => p.2.indices.length)
        = (List.range dm.num_nodes.toNat).map (fun i =>
            if i + 1 < dm.num_nodes.toNat then N / dm.num_nodes.toNat
            else N / dm.num_nodes.toNat + N % dm.num_nodes.toNat) ∧
      ∀ a ∈ entries.map (fun p => p.2.indices.length),
        ∀ b ∈ entries.map (fun p => p.2.indices.length),
          a ≤ b + (dm.num_nodes.toNat - 1) := by
  have hne : ¬ dm.num_nodes = 0 := by omega
  have hn1 : 1 ≤ dm.num_nodes.toNat := by omega
  simp only [DataModule.create_test_loaders, hN, hns, if_neg hne]
  refine ⟨_, rfl, ?_, ?_⟩
  · rw [List.map_map]
    apply List.map_congr_left
    intro i hi
    have hi' : i < dm.num_nodes.toNat := List.mem_range.mp hi
    have hlen : (pyShuffle (List.range N) w.rng).1.length = N := by
      rw [pyShuffle_length, List.length_range]
    exact length_testSlice _ N dm.num_nodes.toNat i hlen hn1 hi'
  · intro a ha b hb
    rw [List.map_map] at ha hb
    have hlen : (pyShuffle (List.range N) w.rng).1.length = N := by
      rw [pyShuffle_length, List.length_range]
    obtain ⟨i, hi, hci⟩ := List.mem_map.mp ha
    obtain ⟨i', hi', hci'⟩ := List.mem_map.mp hb
    have ha2 : a =
        (testSlice (pyShuffle (List.range N) w.rng).1 N dm.num_nodes.toNat i).length :=
      hci.symm
    have hb2 : b =
        (testSlice (pyShuffle (List.range N) w.rng).1 N dm.num_nodes.toNat i').length :=
      hci'.symm
    rw [ha2, hb2,
      length_testSlice _ N dm.num_nodes.toNat i hlen hn1 (List.mem_range.mp hi),
      length_testSlice _ N dm.num_nodes.toNat i' hlen hn1 (List.mem_range.mp hi')]
    have hmod : N % dm.num_nodes.toNat < dm.num_nodes.toNat :=
      Nat.mod_lt _ (by omega)
    by_cases h1 : i + 1 < dm.num_nodes.toNat <;>
      by_cases h2 : i' + 1 < dm.num_nodes.toNat <;>
      simp only [if_pos, if_neg, h1, h2, if_true, if_false] <;> omega

/-- Witness for C2: the spec's concrete scenario — `num_nodes = 3`, test set
size 100 — yields split sizes `[33, 33, 34]`. -/
theorem test_split_sizes_witness :
    ∃ entries,
      (DataModule.create_test_loaders dmReady100 w0).dm.test_loaders_per_node = some entries ∧
      entries.map (fun p => p.2.indices.length) = [33, 33, 34] := by
  obtain ⟨entries, h1, h2, _⟩ :=
    test_split_sizes dmReady100 w0 100 [0, 1, 2] rfl rfl (by decide)
  refine ⟨entries, h1, ?_⟩
  rw [h2]
  decide

/- ### C3: the constructor performs no validation -/

/-- Counterexample to C3: constructing a `DataModule` with the invalid
configuration `num_nodes = 0`, `alpha = -1`, `batch_size = 0` does not raise
a configuration error — the constructor returns normally. -/
theorem init_accepts_invalid_config_counterexample :
    DataModule_init_run cfgBad w0 = .ok (DataModule_init cfgBad w0) := rfl

/-- C3 (amended): the constructor performs no validation at all: for every
configuration — including invalid ones with `num_nodes ≤ 0`, `alpha ≤ 0` or
`batch_size ≤ 0` — construction completes normally without raising, stores
the configuration verbatim, and leaves every derived attribute
uninitialized. -/
theorem init_never_fails (cfg : Config) (w : World) :
    DataModule_init_run cfg w = .ok (DataModule_init cfg w) ∧
    (DataModule_init cfg w).1.num_nodes = cfg.num_nodes ∧
    (DataModule_init cfg w).1.alpha = cfg.alpha ∧
    (DataModule_init cfg w).1.batch_size = cfg.batch_size ∧
    (DataModule_init cfg w).1.random_seed = cfg.random_seed ∧
    (DataModule_init cfg w).1.node_datasets = none ∧
    (DataModule_init cfg w).1.test_loaders_per_node = none :=
  ⟨rfl, rfl, rfl, rfl, rfl, rfl, rfl⟩

/- ### C4: a collaborator exception aborts setup -/

/-- Collaborator environment in which `visualize_data_distribution` raises. -/
def envVizFail : SetupEnv :=
  { labels := [0], testLen := 2, printDist := .ok (),
    vizDist := .error (.collaborator "viz"),
    buildTopo := .ok (), vizTopo := .ok () }

/-- Counterexample to C4: with a failing visualization collaborator, `setup`
on a freshly constructed module aborts — the collaborator's error escapes
`setup` and neither the node-to-dataset map nor the Test Split Map is ever
derived, so the module does not reach the Ready state. -/
theorem setup_aborts_on_viz_failure_counterexample :
    (runSetup cfg3 w0 envVizFail).err = some (.collaborator "viz") ∧
    (runSetup cfg3 w0 envVizFail).dm.node_datasets = none ∧
    (runSetup cfg3 w0 envVizFail).dm.test_loaders_per_node = none :=
  ⟨rfl, rfl, rfl⟩

/-- C4 (amended): `setup` wraps none of its collaborator calls in exception
handling, so if a visualization or logging collaborator
(`print_class_distribution`, `visualize_data_distribution`, or
`visualize_and_save_topology`) raises, `setup` aborts at that point: the
error propagates out of `setup` unchanged and the node-to-dataset map and
Test Split Map keep their prior (underived) values. -/
theorem setup_propagates_collaborator_failure (dm : DataModule) (w : World)
    (env : SetupEnv) (e : DMError)
    (hcase : env.printDist = .error e ∨
      (env.printDist = .ok () ∧ env.vizDist = .error e) ∨
      (env.printDist = .ok () ∧ env.vizDist = .ok () ∧ env.buildTopo = .ok () ∧
        env.vizTopo = .error e)) :
    (DataModule.setup dm w env).err = some e ∧
    (DataModule.setup dm w env).dm.node_datasets = dm.node_datasets ∧
    (DataModule.setup dm w env).dm.test_loaders_per_node
      = dm.test_loaders_per_node := by
  rcases hcase with h | ⟨h1, h2⟩ | ⟨h1, h2, h3, h4⟩
  · simp [DataModule.setup, h]
  · simp [DataModule.setup, h1, h2]
  · simp [DataModule.setup, h1, h2, h3, h4]

/-- Witness for C4 (amended): the failing-visualizer environment on a fresh
3-node module. -/
theorem setup_propagates_collaborator_failure_witness :
    (DataModule.setup (DataModule_init cfg3 w0).1 (DataModule_init cfg3 w0).2
        envVizFail).err = some (.collaborator "viz") ∧
    (DataModule.setup (DataModule_init cfg3 w0).1 (DataModule_init cfg3 w0).2
        envVizFail).dm.node_datasets = (DataModule_init cfg3 w0).1.node_datasets ∧
    (DataModule.setup (DataModule_init cfg3 w0).1 (DataModule_init cfg3 w0).2
        envVizFail).dm.test_loaders_per_node
      = (DataModule_init cfg3 w0).1.test_loaders_per_node :=
  setup_propagates_collaborator_failure (DataModule_init cfg3 w0).1
    (DataModule_init cfg3 w0).2 envVizFail (.collaborator "viz")
    (Or.inr (Or.inl ⟨rfl, rfl⟩))

/- ### C5: accessors fail before setup -/

/-- C5: on a `DataModule` whose derived maps are still `None` (i.e. before
`setup` has completed), every accessor — `get_train_loader`,
`get_test_loader`, `get_data_sizes`, `calculate_selection_probabilities` —
fails immediately with an uninitialized-state error instead of silently
returning an empty or default result. -/
theorem accessors_fail_before_setup (dm : DataModule) (w : World) (node_id : Int)
    (h1 : dm.node_datasets = none) (h2 : dm.test_loaders_per_node = none) :
    DataModule.get_train_loader dm w node_id = .error .uninitialized ∧
    DataModule.get_test_loader dm w node_id = .error .uninitialized ∧
    DataModule.get_data_sizes dm w = .error .uninitialized ∧
    DataModule.calculate_selection_probabilities dm w = .error .uninitialized := by
  refine ⟨?_, ?_, ?_, ?_⟩ <;>
    simp [DataModule.get_train_loader, DataModule.get_test_loader,
      DataModule.get_data_sizes, DataModule.calculate_selection_probabilities,
      utils_calculate_selection_probabilities, h1, h2]

/-- Witness for C5: a freshly constructed module rejects all four accessors. -/
theorem accessors_fail_before_setup_witness :
    DataModule.get_train_loader (DataModule_init cfg3 w0).1 (DataModule_init cfg3 w0).2 0
      = .error .uninitialized ∧
    DataModule.get_test_loader (DataModule_init cfg3 w0).1 (DataModule_init cfg3 w0).2 0
      = .error .uninitialized ∧
    DataModule.get_data_sizes (DataModule_init cfg3 w0).1 (DataModule_init cfg3 w0).2
      = .error .uninitialized ∧
    DataModule.calculate_selection_probabilities (DataModule_init cfg3 w0).1
      (DataModule_init cfg3 w0).2 = .error .uninitialized :=
  accessors_fail_before_setup (DataModule_init cfg3 w0).1
    (DataModule_init cfg3 w0).2 0 rfl rfl

/- ### Key-lookup helpers and the shape of a successful setup -/

theorem lookup_eq_none_of_keys {β : Type} (m : List (Int × β)) (k : Int)
    (h : ∀ p ∈ m, p.1 ≠ k) : List.lookup k m = none := by
  induction m with
  | nil => rfl
  | cons p t ih =>
    obtain ⟨k1, v1⟩ := p
    have hp : k1 ≠ k := h (k1, v1) (List.mem_cons_self _ t)
    have hbeq : (k == k1) = false := by
      simp only [beq_eq_false_iff_ne, ne_eq]
      exact fun hh => hp hh.symm
    simp only [List.lookup, hbeq]
    exact ih (fun q hq => h q (List.mem_cons_of_mem _ hq))

theorem mem_create_nodes (nn : Int) (node : Int) (h : node ∈ create_nodes nn) :
    0 ≤ node ∧ node < nn := by
  simp only [create_nodes, List.mem_map, List.mem_range] at h
  obtain ⟨i, hi, rfl⟩ := h
  simp only [Int.ofNat_eq_natCast]
  omega

theorem create_nodes_key (nn : Int) (i : Nat) (hi : i < nn.toNat) :
    (create_nodes nn).getD i 0 = Int.ofNat i := by
  simp [create_nodes, List.getD, hi]

theorem entries_key_ne {β : Type} (nn : Int) (node_id : Int) (f : Nat → β)
    (hout : node_id < 0 ∨ nn ≤ node_id) :
    ∀ p ∈ (List.range nn.toNat).map (fun i => ((create_nodes nn).getD i 0, f i)),
      p.1 ≠ node_id := by
  intro p hp
  obtain ⟨i, hi, rfl⟩ := List.mem_map.mp hp
  have hi' : i < nn.toNat := List.mem_range.mp hi
  show (create_nodes nn).getD i 0 ≠ node_id
  rw [create_nodes_key nn i hi']
  simp only [Int.ofNat_eq_natCast]
  omega

/-- A successful `setup` run requires every collaborator to have succeeded and
a nonzero node count, and determines the derived maps exactly: the
node-to-dataset map pairs each node of the registry with its training shard,
and the Test Split Map pairs the registry nodes (in order) with loaders,
freshly allocated in loop order, over the slices of the shuffled test index
range. -/
theorem setup_ok_full (dm : DataModule) (w : World) (env : SetupEnv)
    (h : (DataModule.setup dm w env).err = none) :
    dm.num_nodes ≠ 0 ∧
    (DataModule.setup dm w env).dm.node_datasets
      = some ((create_nodes dm.num_nodes).map (fun node =>
          (node,
           (load_datasets_dirichlet dm.num_nodes dm.alpha env w.npRng).1.1.getD
             node.toNat []))) ∧
    (DataModule.setup dm w env).dm.test_loaders_per_node
      = some ((List.range dm.num_nodes.toNat).map (fun i =>
          ((create_nodes dm.num_nodes).getD i 0,
           { objId := w.alloc + i
             indices := testSlice (pyShuffle (List.range env.testLen) w.rng).1
               env.testLen dm.num_nodes.toNat i
             batch_size := dm.batch_size
             shuffle := false : DataLoader }))) ∧
    (DataModule.setup dm w env).world.alloc = w.alloc + dm.num_nodes.toNat := by
  cases hpd : env.printDist with
  | error e => simp [DataModule.setup, hpd] at h
  | ok u =>
  cases hvd : env.vizDist with
  | error e => simp [DataModule.setup, hpd, hvd] at h
  | ok u2 =>
  cases hbt : env.buildTopo with
  | error e => simp [DataModule.setup, hpd, hvd, hbt] at h
  | ok u3 =>
  cases hvt : env.vizTopo with
  | error e => simp [DataModule.setup, hpd, hvd, hbt, hvt] at h
  | ok u4 =>
  by_cases hz : dm.num_nodes = 0
  · simp [DataModule.setup, hpd, hvd, hbt, hvt,
      DataModule.create_test_loaders, load_datasets_dirichlet, hz] at h
  · refine ⟨hz, ?_, ?_, ?_⟩ <;>
      simp [DataModule.setup, hpd, hvd, hbt, hvt,
        DataModule.create_test_loaders, load_datasets_dirichlet, hz]

theorem get_train_loader_unknown (dm : DataModule) (w : World) (node_id : Int)
    (m : List (Int × List Nat)) (hm : dm.node_datasets = some m)
    (hk : ∀ p ∈ m, p.1 ≠ node_id) :
    DataModule.get_train_loader dm w node_id = .error (.unknownNode node_id) := by
  simp [DataModule.get_train_loader, hm, lookup_eq_none_of_keys m node_id hk]

theorem get_test_loader_unknown (dm : DataModule) (w : World) (node_id : Int)
    (m : List (Int × DataLoader)) (hm : dm.test_loaders_per_node = some m)
    (hk : ∀ p ∈ m, p.1 ≠ node_id) :
    DataModule.get_test_loader dm w node_id = .error (.unknownNode node_id) := by
  simp [DataModule.get_test_loader, hm, lookup_eq_none_of_keys m node_id hk]

/- ### C6: unknown node identifiers are rejected after setup -/

/-- C6: after a successful `setup`, calling `get_train_loader` or
`get_test_loader` with any node identifier outside the registry
`{0, …, num_nodes-1}` fails immediately with a key error that carries the
offending identifier, and no state is modified (both accessors return before
touching any field; the error value itself names the bad identifier). -/
theorem unknown_node_accessors_fail (dm : DataModule) (w : World) (env : SetupEnv)
    (node_id : Int) (h : (DataModule.setup dm w env).err = none)
    (hout : node_id < 0 ∨ dm.num_nodes ≤ node_id) :
    DataModule.get_train_loader (DataModule.setup dm w env).dm
        (DataModule.setup dm w env).world node_id
      = .error (.unknownNode node_id) ∧
    DataModule.get_test_loader (DataModule.setup dm w env).dm
        (DataModule.setup dm w env).world node_id
      = .error (.unknownNode node_id) := by
  obtain ⟨hnz, hnd, htl, hal⟩ := setup_ok_full dm w env h
  constructor
  · refine get_train_loader_unknown _ _ node_id _ hnd ?_
    intro p hp
    obtain ⟨node, hnode, rfl⟩ := List.mem_map.mp hp
    obtain ⟨h0, h1⟩ := mem_create_nodes _ _ hnode
    show node ≠ node_id
    omega
  · exact get_test_loader_unknown _ _ node_id _ htl
      (entries_key_ne dm.num_nodes node_id _ hout)

/-- A concrete all-collaborators-succeed environment with a one-class,
one-example training label vector and a 2-example test set. -/
def env0 : SetupEnv :=
  { labels := [0], testLen := 2, printDist := .ok (), vizDist := .ok (),
    buildTopo := .ok (), vizTopo := .ok () }

/-- A concrete single-node configuration. -/
def cfg1 : Config :=
  { num_nodes := 1, alpha := 1, topology := "ring", topology_file := none,
    output_dir := "results", batch_size := 4, random_seed := 0 }

/-- Witness for C6: a successful single-node setup rejects node id 5. -/
theorem unknown_node_accessors_fail_witness :
    DataModule.get_train_loader
        (DataModule.setup (DataModule_init cfg1 w0).1 (DataModule_init cfg1 w0).2 env0).dm
        (DataModule.setup (DataModule_init cfg1 w0).1 (DataModule_init cfg1 w0).2 env0).world
        5 = .error (.unknownNode 5) ∧
    DataModule.get_test_loader
        (DataModule.setup (DataModule_init cfg1 w0).1 (DataModule_init cfg1 w0).2 env0).dm
        (DataModule.setup (DataModule_init cfg1 w0).1 (DataModule_init cfg1 w0).2 env0).world
        5 = .error (.unknownNode 5) :=
  unknown_node_accessors_fail (DataModule_init cfg1 w0).1 (DataModule_init cfg1 w0).2
    env0 5 (by decide) (by decide)

/- ### C7: determinism under identical configuration -/

/-- The err flag, the Node Assignment Map and the Test Split Map produced by
`setup` depend only on the module's configuration fields, the two generator
states and the collaborator environment — not on the heap allocation counter
(loader object identities are forgotten by `testIdxProj`). -/
theorem setup_determined (dm : DataModule) (w1 w2 : World) (env : SetupEnv)
    (hr : w1.rng = w2.rng) (hnp : w1.npRng = w2.npRng) :
    (DataModule.setup dm w1 env).err = (DataModule.setup dm w2 env).err ∧
    (DataModule.setup dm w1 env).dm.node_datasets
      = (DataModule.setup dm w2 env).dm.node_datasets ∧
    testIdxProj (DataModule.setup dm w1 env).dm
      = testIdxProj (DataModule.setup dm w2 env).dm := by
  cases hpd : env.printDist <;> cases hvd : env.vizDist <;>
    cases hbt : env.buildTopo <;> cases hvt : env.vizTopo <;>
    by_cases hz : dm.num_nodes = 0 <;>
    simp [DataModule.setup, DataModule.create_test_loaders, testIdxProj,
      load_datasets_dirichlet, hpd, hvd, hbt, hvt, hz, hr, hnp]

/-- `setup` never changes the seeding functions (they are stdlib internals
living in the process, not state the module writes). -/
theorem setup_world_seedFns (dm : DataModule) (w : World) (env : SetupEnv) :
    (DataModule.setup dm w env).world.seedFnPy = w.seedFnPy ∧
    (DataModule.setup dm w env).world.seedFnNp = w.seedFnNp := by
  cases hpd : env.printDist <;> cases hvd : env.vizDist <;>
    cases hbt : env.buildTopo <;> cases hvt : env.vizTopo <;>
    by_cases hz : dm.num_nodes = 0 <;>
    simp [DataModule.setup, DataModule.create_test_loaders,
      load_datasets_dirichlet, hpd, hvd, hbt, hvt, hz]

/-- C7: two `DataModule` instances constructed with identical configuration
(`num_nodes`, `alpha`, `batch_size`, `random_seed`) and each run through
`setup` (construct-and-setup, then construct-and-setup again in the same
process) produce identical Node Assignment Maps and identical Test Split
Maps — bit-identical per-node index sequences — for every configuration,
every initial process state and every collaborator environment, because the
constructor reseeds the global generators and everything else is
deterministic. -/
theorem repeated_runs_identical (cfg : Config) (w : World) (env : SetupEnv) :
    (runSetup cfg w env).dm.node_datasets
      = (runSetup cfg (runSetup cfg w env).world env).dm.node_datasets ∧
    testIdxProj (runSetup cfg w env).dm
      = testIdxProj (runSetup cfg (runSetup cfg w env).world env).dm ∧
    (runSetup cfg w env).err = (runSetup cfg (runSetup cfg w env).world env).err := by
  have hfns := setup_world_seedFns (DataModule_init cfg w).1 (DataModule_init cfg w).2 env
  simp only [runSetup]
  have hrng : (DataModule_init cfg w).2.rng
      = (DataModule_init cfg (DataModule.setup (DataModule_init cfg w).1
          (DataModule_init cfg w).2 env).world).2.rng := by
    show RngState.mk (w.seedFnPy cfg.random_seed) 0
        = RngState.mk ((DataModule.setup (DataModule_init cfg w).1
            (DataModule_init cfg w).2 env).world.seedFnPy cfg.random_seed) 0
    rw [hfns.1]
    rfl
  have hnp : (DataModule_init cfg w).2.npRng
      = (DataModule_init cfg (DataModule.setup (DataModule_init cfg w).1
          (DataModule_init cfg w).2 env).world).2.npRng := by
    show RngState.mk (w.seedFnNp cfg.random_seed) 0
        = RngState.mk ((DataModule.setup (DataModule_init cfg w).1
            (DataModule_init cfg w).2 env).world.seedFnNp cfg.random_seed) 0
    rw [hfns.2]
    rfl
  have hdet := setup_determined (DataModule_init cfg w).1 (DataModule_init cfg w).2
    (DataModule_init cfg (DataModule.setup (DataModule_init cfg w).1
      (DataModule_init cfg w).2 env).world).2 env hrng hnp
  exact ⟨hdet.2.1, hdet.2.2, hdet.1⟩

/- ### C8: setup is re-runnable but not idempotent -/

/-- A 3-node configuration with seed 0 (so the stand-in stream is the
identity). -/
def cfgSeed0 : Config :=
  { num_nodes := 3, alpha := 1, topology := "fully", topology_file := none,
    output_dir := "results", batch_size := 32, random_seed := 0 }

/-- A collaborator environment with an empty training label vector and a
3-example test set, all collaborators succeeding. -/
def env3 : SetupEnv :=
  { labels := [], testLen := 3, printDist := .ok (), vizDist := .ok (),
    buildTopo := .ok (), vizTopo := .ok () }

/-- Counterexample to C8: on a concrete 3-node run, calling `setup` a second
time on the already-Ready instance is neither rejected (it completes with no
error) nor does it re-derive the same state: the global `random` generator
has advanced, so the second shuffle differs and the re-derived Test Split
Map is different from the first one. -/
theorem setup_not_idempotent_counterexample :
    (DataModule.setup (runSetup cfgSeed0 w0 env3).dm
        (runSetup cfgSeed0 w0 env3).world env3).err = none ∧
    testIdxProj (DataModule.setup (runSetup cfgSeed0 w0 env3).dm
        (runSetup cfgSeed0 w0 env3).world env3).dm
      ≠ testIdxProj (runSetup cfgSeed0 w0 env3).dm := by
  constructor
  · rfl
  · decide

/-- C8 (amended): re-entering `setup` on an already-Ready instance is not
rejected: it fully re-derives all state by the same deterministic procedure,
ignoring the previously derived maps — the outcome depends only on the
configuration fields, the current global generator states and the
collaborator environment.  Because the generators have advanced since the
first call, the re-derived maps are not in general equal to the first run's,
so `setup` is not idempotent. -/
theorem setup_rederives_ignoring_prior_state (dm1 dm2 : DataModule) (w : World)
    (env : SetupEnv) (hn : dm1.num_nodes = dm2.num_nodes)
    (ha : dm1.alpha = dm2.alpha) (hb : dm1.batch_size = dm2.batch_size) :
    (DataModule.setup dm1 w env).err = (DataModule.setup dm2 w env).err ∧
    ((DataModule.setup dm1 w env).err = none →
      (DataModule.setup dm1 w env).dm.node_datasets
        = (DataModule.setup dm2 w env).dm.node_datasets ∧
      testIdxProj (DataModule.setup dm1 w env).dm
        = testIdxProj (DataModule.setup dm2 w env).dm) := by
  obtain ⟨n1, a1, t1, tf1, o1, b1, rs1, td1, ts1, lb1, nd1, g1, nds1, tl1⟩ := dm1
  obtain ⟨n2, a2, t2, tf2, o2, b2, rs2, td2, ts2, lb2, nd2, g2, nds2, tl2⟩ := dm2
  simp only at hn ha hb
  subst hn
  subst ha
  subst hb
  cases hpd : env.printDist <;> cases hvd : env.vizDist <;>
    cases hbt : env.buildTopo <;> cases hvt : env.vizTopo <;>
    by_cases hz : n1 = 0 <;>
    simp [DataModule.setup, DataModule.create_test_loaders, testIdxProj,
      load_datasets_dirichlet, hpd, hvd, hbt, hvt, hz]

/-- Witness for C8 (amended): re-running `setup` on the concrete Ready
instance gives exactly what a from-scratch derivation under the same
generator state gives. -/
theorem setup_rederives_ignoring_prior_state_witness :
    (DataModule.setup (runSetup cfgSeed0 w0 env3).dm
        (runSetup cfgSeed0 w0 env3).world env3).err
      = (DataModule.setup (DataModule_init cfgSeed0 w0).1
          (runSetup cfgSeed0 w0 env3).world env3).err ∧
    ((DataModule.setup (runSetup cfgSeed0 w0 env3).dm
        (runSetup cfgSeed0 w0 env3).world env3).err = none →
      (DataModule.setup (runSetup cfgSeed0 w0 env3).dm
          (runSetup cfgSeed0 w0 env3).world env3).dm.node_datasets
        = (DataModule.setup (DataModule_init cfgSeed0 w0).1
            (runSetup cfgSeed0 w0 env3).world env3).dm.node_datasets ∧
      testIdxProj (DataModule.setup (runSetup cfgSeed0 w0 env3).dm
          (runSetup cfgSeed0 w0 env3).world env3).dm
        = testIdxProj (DataModule.setup (DataModule_init cfgSeed0 w0).1
            (runSetup cfgSeed0 w0 env3).world env3).dm) :=
  setup_rederives_ignoring_prior_state (runSetup cfgSeed0 w0 env3).dm
    (DataModule_init cfgSeed0 w0).1 (runSetup cfgSeed0 w0 env3).world env3
    rfl rfl rfl

/- ### C9: accessors are read-only -/

/-- C9: after setup, every accessor call that succeeds leaves all
`DataModule` state fields untouched — the returned module is identical to the
input module (and for the non-allocating accessors the whole process state is
unchanged as well; `get_train_loader` only allocates a fresh loader object on
the heap, touching no module field). -/
theorem accessors_preserve_state (dm : DataModule) (w : World) (node_id : Int) :
    (∀ l dm2 w2, DataModule.get_train_loader dm w node_id = .ok (l, dm2, w2) →
      dm2 = dm) ∧
    (∀ l dm2 w2, DataModule.get_test_loader dm w node_id = .ok (l, dm2, w2) →
      dm2 = dm ∧ w2 = w) ∧
    (∀ s dm2 w2, DataModule.get_data_sizes dm w = .ok (s, dm2, w2) →
      dm2 = dm ∧ w2 = w) ∧
    (∀ ps dm2 w2, DataModule.calculate_selection_probabilities dm w
        = .ok (ps, dm2, w2) → dm2 = dm ∧ w2 = w) := by
  refine ⟨?_, ?_, ?_, ?_⟩
  · intro l dm2 w2 hok
    unfold DataModule.get_train_loader at hok
    split at hok
    · exact absurd hok (by simp)
    · split at hok
      · exact absurd hok (by simp)
      · simp only [Except.ok.injEq, Prod.mk.injEq] at hok
        exact hok.2.1.symm
  · intro l dm2 w2 hok
    unfold DataModule.get_test_loader at hok
    split at hok
    · exact absurd hok (by simp)
    · split at hok
      · exact absurd hok (by simp)
      · simp only [Except.ok.injEq, Prod.mk.injEq] at hok
        exact ⟨hok.2.1.symm, hok.2.2.symm⟩
  · intro s dm2 w2 hok
    unfold DataModule.get_data_sizes at hok
    split at hok
    · exact absurd hok (by simp)
    · simp only [Except.ok.injEq, Prod.mk.injEq] at hok
      exact ⟨hok.2.1.symm, hok.2.2.symm⟩
  · intro ps dm2 w2 hok
    unfold DataModule.calculate_selection_probabilities at hok
    split at hok
    · exact absurd hok (by simp)
    · simp only [Except.ok.injEq, Prod.mk.injEq] at hok
      exact ⟨hok.2.1.symm, hok.2.2.symm⟩

/-- A concrete Ready module used by the accessor witnesses. -/
def dmAcc : DataModule :=
  { num_nodes := 1, alpha := 1, topology := "fully", topology_file := none,
    output_dir := "results", batch_size := 2, random_seed := 0,
    train_datasets := some [[0, 1, 2]], test_dataset := some 3,
    labels := some [0, 0, 0], nodes := some [0], G := some (),
    node_datasets := some [(0, [0, 1, 2])],
    test_loaders_per_node :=
      some [(0, { objId := 7, indices := [2, 0, 1], batch_size := 2,
                  shuffle := false })] }

/-- Witness for C9: on a concrete Ready module all four accessors succeed,
and the successful train-loader call returns the module unchanged. -/
theorem accessors_preserve_state_witness :
    DataModule.get_train_loader dmAcc w0 0
      = .ok ({ objId := 0, indices := [0, 1, 2], batch_size := 2, shuffle := true },
             dmAcc, { w0 with alloc := 1 }) ∧
    DataModule.get_test_loader dmAcc w0 0
      = .ok ({ objId := 7, indices := [2, 0, 1], batch_size := 2, shuffle := false },
             dmAcc, w0) ∧
    DataModule.get_data_sizes dmAcc w0 = .ok ([(0, 3)], dmAcc, w0) ∧
    DataModule.calculate_selection_probabilities dmAcc w0 = .ok ([1], dmAcc, w0) ∧
    dmAcc = dmAcc := by
  refine ⟨rfl, rfl, rfl, ?_, ?_⟩
  · show DataModule.calculate_selection_probabilities dmAcc w0 = .ok ([1], dmAcc, w0)
    have h3 : ((3 : Rat) / 3) = 1 := by norm_num
    simp [DataModule.calculate_selection_probabilities,
      utils_calculate_selection_probabilities, dmAcc, h3]
  · exact (accessors_preserve_state dmAcc w0 0).1
      { objId := 0, indices := [0, 1, 2], batch_size := 2, shuffle := true }
      dmAcc { w0 with alloc := 1 } rfl

/- ### C10: test loaders are cached, train loaders are fresh -/

/-- C10: `get_test_loader` is idempotent at the object level — a successful
call returns the loader cached in the map (allocating nothing and changing
nothing, so an immediate second call returns the identical object), and
after a successful `setup` every loader in the Test Split Map was allocated
during `setup` (its identity lies below the post-`setup` allocation
frontier).  `get_train_loader`, in contrast, constructs a fresh loader on
every call: a successful call returns the object just allocated at the
current frontier and advances the frontier, so an immediate second call
returns an object with a different identity. -/
theorem test_loader_cached_train_loader_fresh (dm : DataModule) (w : World)
    (node_id : Int) :
    (∀ l dm2 w2, DataModule.get_test_loader dm w node_id = .ok (l, dm2, w2) →
      dm2 = dm ∧ w2 = w ∧
      DataModule.get_test_loader dm2 w2 node_id = .ok (l, dm2, w2)) ∧
    (∀ l dm2 w2, DataModule.get_train_loader dm w node_id = .ok (l, dm2, w2) →
      l.objId = w.alloc ∧ w2.alloc = w.alloc + 1 ∧
      ∀ l2 dm3 w3, DataModule.get_train_loader dm2 w2 node_id = .ok (l2, dm3, w3) →
        l2.objId ≠ l.objId) ∧
    (∀ env, (DataModule.setup dm w env).err = none →
      ∀ p ∈ ((DataModule.setup dm w env).dm.test_loaders_per_node).getD [],
        p.2.objId < (DataModule.setup dm w env).world.alloc) := by
  refine ⟨?_, ?_, ?_⟩
  · intro l dm2 w2 hok
    unfold DataModule.get_test_loader at hok ⊢
    cases hmap : dm.test_loaders_per_node with
    | none =>
      simp only [hmap] at hok
      exact Except.noConfusion hok
    | some m =>
      simp only [hmap] at hok
      cases hlook : List.lookup node_id m with
      | none =>
        simp only [hlook] at hok
        exact Except.noConfusion hok
      | some ld =>
        simp only [hlook, Except.ok.injEq, Prod.mk.injEq] at hok
        obtain ⟨hl, hdm, hw⟩ := hok
        subst hl
        subst hdm
        subst hw
        simp [hmap, hlook]
  · intro l dm2 w2 hok
    unfold DataModule.get_train_loader at hok
    cases hmap : dm.node_datasets with
    | none =>
      simp only [hmap] at hok
      exact Except.noConfusion hok
    | some m =>
      simp only [hmap] at hok
      cases hlook : List.lookup node_id m with
      | none =>
        simp only [hlook] at hok
        exact Except.noConfusion hok
      | some ds =>
        simp only [hlook, Except.ok.injEq, Prod.mk.injEq] at hok
        obtain ⟨hl, hdm, hw⟩ := hok
        subst hl
        subst hdm
        subst hw
        refine ⟨rfl, rfl, ?_⟩
        intro l2 dm3 w3 hok2
        unfold DataModule.get_train_loader at hok2
        simp only [hmap, hlook, Except.ok.injEq, Prod.mk.injEq] at hok2
        obtain ⟨hl2, _, _⟩ := hok2
        subst hl2
        simp
  · intro env h p hp
    obtain ⟨hnz, hnd, htl, hal⟩ := setup_ok_full dm w env h
    rw [htl] at hp
    rw [hal]
    simp only [Option.getD_some] at hp
    obtain ⟨i, hi, rfl⟩ := List.mem_map.mp hp
    have hi' : i < dm.num_nodes.toNat := List.mem_range.mp hi
    show w.alloc + i < w.alloc + dm.num_nodes.toNat
    omega

/-- Witness for C10: on the concrete Ready module, the test loader comes back
identical (object id 7, no allocation), while two successive train-loader
calls allocate ids 0 and then 1, which differ; and after a successful setup
on the same module the cached test loader's id (0) lies below the
post-setup allocation frontier. -/
theorem test_loader_cached_train_loader_fresh_witness :
    DataModule.get_test_loader dmAcc w0 0
      = .ok ({ objId := 7, indices := [2, 0, 1], batch_size := 2, shuffle := false },
             dmAcc, w0) ∧
    DataModule.get_train_loader dmAcc w0 0
      = .ok ({ objId := 0, indices := [0, 1, 2], batch_size := 2, shuffle := true },
             dmAcc, { w0 with alloc := 1 }) ∧
    DataModule.get_train_loader dmAcc { w0 with alloc := 1 } 0
      = .ok ({ objId := 1, indices := [0, 1, 2], batch_size := 2, shuffle := true },
             dmAcc, { w0 with alloc := 2 }) ∧
    ({ objId := 1, indices := [0, 1, 2], batch_size := 2, shuffle := true }
        : DataLoader).objId
      ≠ ({ objId := 0, indices := [0, 1, 2], batch_size := 2, shuffle := true }
        : DataLoader).objId ∧
    ((0 : Int), ({ objId := 0, indices := [0, 1], batch_size := 2, shuffle := false }
        : DataLoader)).2.objId
      < (DataModule.setup dmAcc w0 env0).world.alloc := by
  refine ⟨rfl, rfl, rfl, ?_, ?_⟩
  · exact ((test_loader_cached_train_loader_fresh dmAcc w0 0).2.1
      { objId := 0, indices := [0, 1, 2], batch_size := 2, shuffle := true }
      dmAcc { w0 with alloc := 1 } rfl).2.2
      { objId := 1, indices := [0, 1, 2], batch_size := 2, shuffle := true }
      dmAcc { w0 with alloc := 2 } rfl
  · exact (test_loader_cached_train_loader_fresh dmAcc w0 0).2.2 env0 rfl
      ((0 : Int), { objId := 0, indices := [0, 1], batch_size := 2, shuffle := false })
      (by decide)
